import Mathlib

/-!
Verification of the supermarket chatbot pipeline (`app.py`).

The program is a single-file Streamlit app gluing a chat UI, the Gemini LLM
API and a PostgreSQL database.  We embed it shallowly: the two external
services are an abstract environment (`Env`), the pipeline functions
`get_db_schema` and `generate_db_answer` are direct translations of the
Python functions, and every external interaction is recorded in an event
trace so that claims about "no LLM call", "no query execution" and
connection lifetime become statements about the trace.

Python-level string operations used by the code (`str.strip`,
`str.replace`, the `in` substring test, `str()` of a list of row
dictionaries) are modelled character-exactly; `str.strip` and
`str.replace` are modelled for the inputs the program produces (the
`replace` patterns are never empty, and string values carry no quote or
backslash characters needing Python escaping).

An uncaught Python exception is modelled as `Except.error`: the only such
exception reachable in `generate_db_answer` is the `TypeError` raised at
line 109 of `app.py` when `cur.description` is `None`, i.e. when the
executed statement succeeded but produced no result set (INSERT / DDL).
-/

namespace App

/-! ## Python string primitives -/

/-- The backtick character (written via its code point). -/
def bq : Char := '\x60'

/-- The three-backtick code-fence delimiter, as a character list. -/
def fenceL : List Char := [bq, bq, bq]

/-- The `sql` language tag of a fenced code block. -/
def sqlTag : List Char := ['s', 'q', 'l']

/-- The fence-plus-tag pattern removed first at line 95. -/
def fenceSqlL : List Char := [bq, bq, bq, 's', 'q', 'l']

/-- The two patterns as strings. -/
def fenceS : String := ⟨fenceL⟩

def fenceSqlS : String := ⟨fenceSqlL⟩

/-- Characters removed by Python `str.strip()` (ASCII whitespace). -/
def isPySpace (c : Char) : Bool :=
  c == ' ' || c == '\t' || c == '\n' || c == '\r' || c == '\x0b' || c == '\x0c'

/-- Python `str.strip()` on a character list: drop whitespace from both ends. -/
def stripChars (l : List Char) : List Char :=
  List.rdropWhile isPySpace (List.dropWhile isPySpace l)

/-- Python `str.strip()`. -/
def pyStrip (s : String) : String := ⟨stripChars s.data⟩

/-- Python `str.replace(pat, repl)` (non-empty `pat`): scan left to right,
replace each non-overlapping occurrence, continue after the replacement.
`fuel` bounds the number of scanning steps; each step consumes at least one
character, so `fuel = length of the list` always suffices. -/
def replaceFuel (pat repl : List Char) : Nat → List Char → List Char
  | _, [] => []
  | 0, l => l
  | fuel + 1, c :: rest =>
    if pat.isPrefixOf (c :: rest) then
      repl ++ replaceFuel pat repl fuel (rest.drop (pat.length - 1))
    else
      c :: replaceFuel pat repl fuel rest

/-- Python `s.replace(pat, repl)` for non-empty `pat`. -/
def pyReplace (s pat repl : String) : String :=
  ⟨replaceFuel pat.data repl.data s.data.length s.data⟩

/-- Python substring scan: does `pat` occur contiguously in the list? -/
def listContains (pat : List Char) : List Char → Bool
  | [] => pat.isEmpty
  | c :: rest => pat.isPrefixOf (c :: rest) || listContains pat rest

/-- Python `needle in hay` on strings. -/
def strContains (hay needle : String) : Bool :=
  listContains needle.data hay.data

/-! ## Row values and Python `str()` of query results -/

/-- A value in a database result row (the values the claims exercise). -/
inductive PyVal where
  | int (n : Int)
  | str (s : String)
deriving DecidableEq

/-- Python `repr` of a row value (string values are assumed to need no
escaping, as in every scenario of the spec). -/
def pyReprVal : PyVal → String
  | .int n => toString n
  | .str s => "\x27" ++ s ++ "\x27"

/-- Python `repr` of a `dict` kept as an insertion-ordered association list. -/
def pyReprDict (d : List (String × PyVal)) : String :=
  "\x7b" ++ String.intercalate ", " (d.map (fun kv => "\x27" ++ kv.1 ++ "\x27: " ++ pyReprVal kv.2)) ++ "\x7d"

/-- Python `str` of a list of dicts, e.g. `str(result_rows)` at line 114. -/
def pyReprRowList (rows : List (List (String × PyVal))) : String :=
  "[" ++ String.intercalate ", " (rows.map pyReprDict) ++ "]"

/-- Python `dict(pairs)`: insertion order of first key occurrence, a later
duplicate key overwrites the stored value in place. -/
def pyDict (pairs : List (String × PyVal)) : List (String × PyVal) :=
  pairs.foldl
    (fun acc kv =>
      if acc.any (fun e => e.1 == kv.1) then
        acc.map (fun e => if e.1 == kv.1 then (e.1, kv.2) else e)
      else acc ++ [kv])
    []

/-! ## The external environment and the event trace -/

/-- Outcome of `cur.execute(sql)` followed by reading `cur.description`:
either a result set (column names plus rows), or a successful statement
with no result set (`cur.description is None`: INSERT / DDL), or a raised
`psycopg2.Error` carrying a message. -/
inductive ExecResult where
  | rows (cols : List String) (data : List (List PyVal))
  | command
  | err (msg : String)
deriving DecidableEq

/-- The two external services consumed by the program.  `llm` is
`client.models.generate_content` (returning the response text, or the
message of a raised exception); `connect` is `psycopg2.connect` on
`DATABASE_URL`; `execQuery` runs arbitrary SQL on a fresh cursor;
`catalog` is the fixed `information_schema.columns` query of
`get_db_schema`, returning `(table_name, column_name, data_type)` rows. -/
structure Env where
  llm : String → Except String String
  connect : Except String Unit
  execQuery : String → ExecResult
  catalog : Except String (List (String × String × String))

/-- Externally visible steps, in order of occurrence. -/
inductive Event where
  | llmCall (prompt : String)
  | connOpen
  | connClose
  | dbExec (sql : String)
deriving DecidableEq

/-! ## `get_db_schema` (app.py lines 31-65) -/

/-- One rendered column of the schema description: `col (type)`. -/
def schemaEntry (r : String × String × String) : String :=
  r.2.1 ++ " (" ++ r.2.2 ++ ")"

/-- Is `t` a key of the insertion-ordered dict `schema`? -/
def hasKey (schema : List (String × List String)) (t : String) : Bool :=
  schema.any (fun p => p.1 == t)

/-- One iteration of the loop at lines 50-53: `schema.setdefault(table, []).append(entry)`. -/
def dictStep (schema : List (String × List String)) (r : String × String × String) :
    List (String × List String) :=
  if hasKey schema r.1 then
    schema.map (fun p => if p.1 == r.1 then (p.1, p.2 ++ [schemaEntry r]) else p)
  else
    schema ++ [(r.1, [schemaEntry r])]

/-- The `schema` dict after the whole loop over the catalog rows. -/
def buildSchemaDict (rows : List (String × String × String)) : List (String × List String) :=
  rows.foldl dictStep []

/-- Lines 55-57: the `"\n\n".join(...)` rendering of the schema dict. -/
def renderSchema (schema : List (String × List String)) : String :=
  String.intercalate "\n\n"
    (schema.map (fun p => "Table: " ++ p.1 ++ "\nColumns: " ++ String.intercalate ", " p.2))

/-- `get_db_schema()` (lines 31-65): the returned text together with the
trace of connection events.  When `psycopg2.connect` raises, `conn` is
still `None`, so the `finally` block closes nothing; any error is caught
by the broad `except` and flagged in the returned text. -/
def get_db_schema (env : Env) : String × List Event :=
  match env.connect with
  | .error e => ("Schema unavailable due to database error: " ++ e, [])
  | .ok _ =>
    match env.catalog with
    | .error e => ("Schema unavailable due to database error: " ++ e, [.connOpen, .connClose])
    | .ok rows => (renderSchema (buildSchemaDict rows), [.connOpen, .connClose])

/-! ## `generate_db_answer` (app.py lines 69-142) -/

/-- The f-string at lines 80-88, byte for byte. -/
def sql_generation_prompt (db_schema user_question : String) : String :=
  "\n        You are an expert SQL generator for a PostgreSQL database.\n        \n        The database schema is:\n"
    ++ db_schema
    ++ "\n\n        \n        Based on the user\x27s question, generate *only* the single best SQL query. \n        Do not add any explanation, text, or markdown, just the SQL.\n        Question: \""
    ++ user_question ++ "\"\n        "

/-- Line 95: `response.text.strip().replace("\x60\x60\x60sql", "").replace("\x60\x60\x60", "").strip()`. -/
def cleanSql (text : String) : String :=
  pyStrip (pyReplace (pyReplace (pyStrip text) fenceSqlS "") fenceS "")

/-- Line 102: the initial value of `query_result`. -/
def initialQueryResult : String := "No data found."

/-- Message of the `TypeError` raised at line 109 when `cur.description` is `None`. -/
def noneIterError : String := "TypeError: \x27NoneType\x27 object is not iterable"

/-- Lines 100-120 (the query-execution stage): returns the final
`query_result` text, or `Except.error` for the uncaught `TypeError` of a
result-set-less statement, together with the connection/execution trace.
The `finally` block closes the connection on every path on which it was
opened, including the raising one. -/
def execute_body (env : Env) (sql_query : String) : Except String String × List Event :=
  match env.connect with
  | .error e => (.ok ("Database Error: " ++ e), [])
  | .ok _ =>
    match env.execQuery sql_query with
    | .err e => (.ok ("Database Error: " ++ e), [.connOpen, .dbExec sql_query, .connClose])
    | .command => (.error noneIterError, [.connOpen, .dbExec sql_query, .connClose])
    | .rows cols data =>
      (.ok (pyReprRowList (data.map (fun row => pyDict (cols.zip row)))),
        [.connOpen, .dbExec sql_query, .connClose])

/-- The f-string at lines 123-132, byte for byte. -/
def final_answer_prompt (user_question sql_query query_result : String) : String :=
  "\n    The user asked: \"" ++ user_question
    ++ "\"\n    \n    The SQL query executed was: \"" ++ sql_query
    ++ "\"\n    \n    The database result is:\n" ++ query_result
    ++ "\n\n    \n    Analyze the result and provide a clear, concise, natural language answer to the user\x27s original question.\n    If the result is a Database Error or shows \x27No data found.\x27, inform the user politely.\n    "

/-- `generate_db_answer(user_question, db_schema)` (lines 69-142) with its
full external trace.  `Except.error` is an uncaught Python exception
propagating to the caller. -/
def generate_db_answer (env : Env) (user_question db_schema : String) :
    Except String String × List Event :=
  if strContains db_schema "Schema unavailable" then
    (.ok ("Sorry, I can\x27t connect to the database to retrieve the schema. Error: " ++ db_schema), [])
  else
    let p1 := sql_generation_prompt db_schema user_question
    match env.llm p1 with
    | .error e => (.ok ("Error generating SQL: " ++ e), [.llmCall p1])
    | .ok text =>
      let sql_query := cleanSql text
      match execute_body env sql_query with
      | (.error exn, ev2) => (.error exn, .llmCall p1 :: ev2)
      | (.ok query_result, ev2) =>
        let p2 := final_answer_prompt user_question sql_query query_result
        match env.llm p2 with
        | .ok ans => (.ok ans, .llmCall p1 :: (ev2 ++ [.llmCall p2]))
        | .error e =>
          (.ok ("Error generating final answer: " ++ e), .llmCall p1 :: (ev2 ++ [.llmCall p2]))

/-! ## The chat session (app.py lines 156-184) -/

/-- One chat transcript entry (`{"role": ..., "content": ...}`). -/
structure ChatMessage where
  role : String
  content : String
deriving DecidableEq

/-- The seeded transcript (lines 158-161). -/
def initialMessages : List ChatMessage :=
  [⟨"assistant", "Hello, Sir/ Ma\x27am ! I can answer your questions by querying the database. What would you like to know?"⟩]

/-- One user turn (lines 169-184): append the user message, run the
pipeline, append the assistant reply.  If the pipeline raises, the script
run aborts after the user append and before the assistant append. -/
def runTurn (env : Env) (db_schema : String) (msgs : List ChatMessage) (prompt : String) :
    List ChatMessage :=
  let msgs1 := msgs ++ [⟨"user", prompt⟩]
  match (generate_db_answer env prompt db_schema).1 with
  | .ok answer => msgs1 ++ [⟨"assistant", answer⟩]
  | .error _ => msgs1

/-- The transcript after the given sequence of user prompts, with
`DB_SCHEMA` computed once per session (line 156). -/
def sessionTranscript (env : Env) (prompts : List String) : List ChatMessage :=
  prompts.foldl (runTurn env (get_db_schema env).1) initialMessages

/-- The assistant reply of a non-raising turn. -/
def turnAnswer (env : Env) (db_schema prompt : String) : String :=
  match (generate_db_answer env prompt db_schema).1 with
  | .ok answer => answer
  | .error e => e

/-- The two messages a completed turn appends. -/
def turnList (env : Env) (db_schema : String) : List String → List ChatMessage
  | [] => []
  | p :: ps =>
    ⟨"user", p⟩ :: ⟨"assistant", turnAnswer env db_schema p⟩ :: turnList env db_schema ps

/-! ## Spec-side definition for C8 -/

/-- Modelled from the spec wording for the schema description: one group
per table, tables in the order the (already ordered) catalog query returns
them, each group holding that table's `col (type)` entries in catalog
order.  Compared against the dict-building loop `buildSchemaDict`. -/
def specGroupTables : List (String × String × String) → List (String × List String)
  | [] => []
  | r :: rest =>
    (r.1, schemaEntry r :: (rest.filter (fun x => x.1 == r.1)).map schemaEntry)
      :: specGroupTables (rest.filter (fun x => !(x.1 == r.1)))
termination_by l => l.length
decreasing_by
  simp only [List.length_cons]
  exact Nat.lt_succ_of_le (List.length_filter_le _ _)

end App

namespace App

/-! ## Shared helper lemmas -/

lemma isPrefixOf_append_self (p r : List Char) : p.isPrefixOf (p ++ r) = true := by
  simp [List.isPrefixOf_iff_prefix]

lemma listContains_nil_pat (l : List Char) : listContains [] l = true := by
  cases l <;> simp [listContains, List.isPrefixOf]

lemma listContains_middle (pat a b : List Char) : listContains pat (a ++ (pat ++ b)) = true := by
  induction a with
  | nil =>
    rw [List.nil_append]
    cases pat with
    | nil => exact listContains_nil_pat b
    | cons c cs => simp [listContains, isPrefixOf_append_self]
  | cons x a ih => simp [listContains, ih]

lemma db_error_ne_placeholder (e : String) : ("Database Error: " ++ e) ≠ initialQueryResult := by
  intro h
  have h2 : ("Database Error: " ++ e).data.head? = initialQueryResult.data.head? := by rw [h]
  rw [show ("Database Error: " ++ e).data.head? = some 'D' from rfl,
    show initialQueryResult.data.head? = some 'N' from rfl] at h2
  exact absurd h2 (by decide)

lemma rowlist_ne_placeholder (l : List (List (String × PyVal))) :
    pyReprRowList l ≠ initialQueryResult := by
  intro h
  have h2 : (pyReprRowList l).data.head? = initialQueryResult.data.head? := by rw [h]
  rw [show (pyReprRowList l).data.head? = some '[' from rfl,
    show initialQueryResult.data.head? = some 'N' from rfl] at h2
  exact absurd h2 (by decide)

lemma gen_error_ne_empty (e : String) : ("Error generating final answer: " ++ e) ≠ "" := by
  intro h
  have h2 : ("Error generating final answer: " ++ e).data.head? = ("" : String).data.head? := by
    rw [h]
  rw [show ("Error generating final answer: " ++ e).data.head? = some 'E' from rfl] at h2
  exact absurd h2 (by decide)

/-! ## C3 -/

/-- C3: when the schema text carries the `Schema unavailable` error marker,
the turn's reply is the fixed database-unreachable apology (with the schema
error appended) and the trace is empty: no LLM call and no query execution
is attempted. -/
theorem c3_unreachable_schema (env : Env) (q schema : String)
    (h : strContains schema "Schema unavailable" = true) :
    generate_db_answer env q schema =
      (.ok ("Sorry, I can\x27t connect to the database to retrieve the schema. Error: " ++ schema),
        []) := by
  simp [generate_db_answer, h]

def stubEnv : Env :=
  ⟨fun _ => .ok "SELECT 1;", .ok (), fun _ => .rows ["one"] [[.int 1]], .ok [("t", "c", "integer")]⟩

/-- C3 witness: the theorem applied to a concrete marked schema. -/
theorem c3_witness :
    strContains "Schema unavailable due to database error: down" "Schema unavailable" = true
    ∧ generate_db_answer stubEnv "hi" "Schema unavailable due to database error: down" =
      (.ok ("Sorry, I can\x27t connect to the database to retrieve the schema. Error: "
        ++ "Schema unavailable due to database error: down"), []) :=
  ⟨by decide, c3_unreachable_schema stubEnv "hi" _ (by decide)⟩

/-! ## C4 -/

/-- C4: when the SQL-generation LLM call fails, the reply is exactly the
generation-error text and the trace holds only that LLM call: no database
connection is opened and no statement is executed in the turn. -/
theorem c4_generation_error (env : Env) (q schema e : String)
    (hm : strContains schema "Schema unavailable" = false)
    (h : env.llm (sql_generation_prompt schema q) = .error e) :
    generate_db_answer env q schema =
      (.ok ("Error generating SQL: " ++ e), [.llmCall (sql_generation_prompt schema q)]) := by
  simp [generate_db_answer, hm, h]

def c4Env : Env := ⟨fun _ => .error "rate limited", .ok (), fun _ => .rows [] [], .ok []⟩

/-- C4 witness: a concrete failing LLM stub. -/
theorem c4_witness :
    strContains "Table: t" "Schema unavailable" = false
    ∧ generate_db_answer c4Env "q" "Table: t" =
      (.ok ("Error generating SQL: " ++ "rate limited"),
        [.llmCall (sql_generation_prompt "Table: t" "q")]) :=
  ⟨by decide, c4_generation_error c4Env "q" "Table: t" "rate limited" (by decide) rfl⟩

/-! ## C9 -/

/-- C9: each stage's trace is either empty (the connect call itself raised,
so no connection was ever opened) or opens exactly one connection and
closes it before returning — also on the failure paths, including the
raising `cur.description is None` path of the executor, whose `finally`
still closes the connection. -/
theorem c9_connection_release (env : Env) (sql : String) :
    ((get_db_schema env).2 = [] ∨ (get_db_schema env).2 = [Event.connOpen, Event.connClose])
    ∧ ((execute_body env sql).2 = []
        ∨ (execute_body env sql).2 = [Event.connOpen, Event.dbExec sql, Event.connClose]) := by
  constructor
  · cases hc : env.connect with
    | error e => left; simp [get_db_schema, hc]
    | ok u =>
      cases hcat : env.catalog with
      | error e => right; simp [get_db_schema, hc, hcat]
      | ok rows => right; simp [get_db_schema, hc, hcat]
  · cases hc : env.connect with
    | error e => left; simp [execute_body, hc]
    | ok u =>
      cases hq : env.execQuery sql with
      | rows cols data => right; simp [execute_body, hc, hq]
      | command => right; simp [execute_body, hc, hq]
      | err e => right; simp [execute_body, hc, hq]

/-! ## C2 -/

def c2Env : Env := ⟨fun _ => .ok "", .ok (), fun _ => .command, .ok []⟩

/-- C2 counterexample: a statement that executes successfully but returns
no result set (`cur.description is None`, as for INSERT or DDL) makes the
execution stage propagate an uncaught `TypeError` to its caller instead of
producing any textual outcome, refuting "the stage never propagates a
thrown exception". -/
theorem c2_counterexample :
    (execute_body c2Env "INSERT INTO sales VALUES (1)").1 = Except.error noneIterError := rfl

/-- C2 amended: for every SQL string whose execution (or whose connection
attempt) raises a database error, the stage's outcome is the descriptive
string `Database Error: ...` delivered in the same channel as successful
results, with no exception; but statements that succeed without a result
set raise an uncaught `TypeError` (see the counterexample). -/
theorem c2_db_error_channel (env : Env) (sql e : String)
    (h : env.connect = .error e ∨ (env.connect = .ok () ∧ env.execQuery sql = .err e)) :
    (execute_body env sql).1 = .ok ("Database Error: " ++ e) := by
  rcases h with h | ⟨h1, h2⟩
  · simp [execute_body, h]
  · simp [execute_body, h1, h2]

def c2wEnv : Env := ⟨fun _ => .ok "", .ok (), fun _ => .err "relation missing", .ok []⟩

/-- C2 witness: a failing SELECT yields the error string in the result channel. -/
theorem c2_witness :
    (execute_body c2wEnv "SELECT nope").1 = .ok ("Database Error: " ++ "relation missing") :=
  c2_db_error_channel c2wEnv "SELECT nope" "relation missing" (Or.inr ⟨rfl, rfl⟩)

/-! ## C10 -/

/-- C10: a successful query's result text is the Python `str` of the list
of row dictionaries (`[]` for zero rows), and every textual outcome of the
execution stage differs from the initial `No data found.` placeholder, so
the synthesis prompt's instruction about `No data found.` refers to a value
the executor never produces. -/
theorem c10_result_text :
    (∀ (env : Env) (sql : String) (cols : List String) (data : List (List PyVal)),
      env.connect = .ok () → env.execQuery sql = .rows cols data →
      (execute_body env sql).1 = .ok (pyReprRowList (data.map (fun row => pyDict (cols.zip row))))
      ∧ (data = [] → (execute_body env sql).1 = .ok "[]"))
    ∧ (∀ (env : Env) (sql r : String),
        (execute_body env sql).1 = .ok r → r ≠ initialQueryResult) := by
  constructor
  · intro env sql cols data h1 h2
    constructor
    · simp [execute_body, h1, h2]
    · intro hd
      subst hd
      simp [execute_body, h1, h2]
      decide
  · intro env sql r h
    cases h1 : env.connect with
    | error e =>
      simp [execute_body, h1] at h
      exact h ▸ db_error_ne_placeholder e
    | ok u =>
      cases h2 : env.execQuery sql with
      | rows cols data =>
        simp [execute_body, h1, h2] at h
        exact h ▸ rowlist_ne_placeholder _
      | command => simp [execute_body, h1, h2] at h
      | err e =>
        simp [execute_body, h1, h2] at h
        exact h ▸ db_error_ne_placeholder e

def c10Env : Env := ⟨fun _ => .ok "", .ok (), fun _ => .rows ["count"] [], .ok []⟩

/-- C10 witness: zero rows yield exactly `[]`, which is not the placeholder. -/
theorem c10_witness :
    (execute_body c10Env "SELECT 1").1 = .ok "[]" ∧ "[]" ≠ initialQueryResult :=
  ⟨(c10_result_text.1 c10Env "SELECT 1" ["count"] [] rfl rfl).2 rfl,
    c10_result_text.2 c10Env "SELECT 1" "[]"
      ((c10_result_text.1 c10Env "SELECT 1" ["count"] [] rfl rfl).2 rfl)⟩


/-! ## C6 -/

/-- C6 amended: when the generated SQL fails to execute, the error text is
embedded verbatim (character for character) in the synthesis prompt, which
is then sent to the LLM; the reply is the non-empty generation-error text
whenever the synthesis call fails, and is the LLM response text verbatim
(possibly empty) when it succeeds. -/
theorem c6_exec_error_synthesis (env : Env) (q schema text e : String)
    (hm : strContains schema "Schema unavailable" = false)
    (h1 : env.llm (sql_generation_prompt schema q) = .ok text)
    (hc : env.connect = .ok ())
    (he : env.execQuery (cleanSql text) = .err e) :
    (generate_db_answer env q schema).2 =
      [.llmCall (sql_generation_prompt schema q), .connOpen, .dbExec (cleanSql text), .connClose,
        .llmCall (final_answer_prompt q (cleanSql text) ("Database Error: " ++ e))]
    ∧ strContains (final_answer_prompt q (cleanSql text) ("Database Error: " ++ e)) e = true
    ∧ (∀ e2, env.llm (final_answer_prompt q (cleanSql text) ("Database Error: " ++ e)) = .error e2 →
        (generate_db_answer env q schema).1 = .ok ("Error generating final answer: " ++ e2)
        ∧ ("Error generating final answer: " ++ e2) ≠ "")
    ∧ (∀ t, env.llm (final_answer_prompt q (cleanSql text) ("Database Error: " ++ e)) = .ok t →
        (generate_db_answer env q schema).1 = .ok t) := by
  have hcontain :
      strContains (final_answer_prompt q (cleanSql text) ("Database Error: " ++ e)) e = true := by
    unfold strContains final_answer_prompt
    rw [show ("\n    The user asked: \"" ++ q
        ++ "\"\n    \n    The SQL query executed was: \"" ++ cleanSql text
        ++ "\"\n    \n    The database result is:\n" ++ ("Database Error: " ++ e)
        ++ "\n\n    \n    Analyze the result and provide a clear, concise, natural language answer to the user\x27s original question.\n    If the result is a Database Error or shows \x27No data found.\x27, inform the user politely.\n    ").data
      = ("\n    The user asked: \"" ++ q
        ++ "\"\n    \n    The SQL query executed was: \"" ++ cleanSql text
        ++ "\"\n    \n    The database result is:\n" ++ "Database Error: ").data
        ++ (e.data
          ++ ("\n\n    \n    Analyze the result and provide a clear, concise, natural language answer to the user\x27s original question.\n    If the result is a Database Error or shows \x27No data found.\x27, inform the user politely.\n    " : String).data)
      from by simp [String.data_append]]
    exact listContains_middle _ _ _
  cases h2 : env.llm (final_answer_prompt q (cleanSql text) ("Database Error: " ++ e)) with
  | ok t =>
    refine ⟨?_, hcontain, ?_, ?_⟩
    · simp [generate_db_answer, hm, h1, execute_body, hc, he, h2]
    · intro e2 hh
      cases hh
    · intro t2 hh
      cases hh
      simp [generate_db_answer, hm, h1, execute_body, hc, he, h2]
  | error e2 =>
    refine ⟨?_, hcontain, ?_, ?_⟩
    · simp [generate_db_answer, hm, h1, execute_body, hc, he, h2]
    · intro e3 hh
      cases hh
      exact ⟨by simp [generate_db_answer, hm, h1, execute_body, hc, he, h2],
        gen_error_ne_empty _⟩
    · intro t hh
      cases hh

def c6Schema : String := "Table: t\nColumns: x (integer)"

def c6Env : Env :=
  ⟨fun p => if p = sql_generation_prompt c6Schema "q" then .ok "SELECT 1;" else .ok "",
    .ok (), fun _ => .err "boom", .ok []⟩

/-- C6 counterexample: in a turn whose generated SQL fails to execute, a
synthesis call that succeeds with empty response text makes the assistant
reply the empty string, refuting the unconditional "the turn\x27s assistant
reply is a non-empty string". -/
theorem c6_counterexample :
    c6Env.execQuery (cleanSql "SELECT 1;") = ExecResult.err "boom"
    ∧ (generate_db_answer c6Env "q" c6Schema).1 = .ok "" := by
  constructor
  · rfl
  · set_option maxRecDepth 20000 in rfl

def c6wEnv : Env :=
  ⟨fun p => if p = sql_generation_prompt c6Schema "q" then .ok "SELECT 1;" else .error "overloaded",
    .ok (), fun _ => .err "boom", .ok []⟩

/-- C6 witness: concrete failing execution followed by a failing synthesis
call; the reply is the non-empty generation-error text and the error text
sits verbatim in the synthesis prompt. -/
theorem c6_witness :
    strContains c6Schema "Schema unavailable" = false
    ∧ strContains (final_answer_prompt "q" (cleanSql "SELECT 1;") ("Database Error: " ++ "boom"))
        "boom" = true
    ∧ (generate_db_answer c6wEnv "q" c6Schema).1 =
        .ok ("Error generating final answer: " ++ "overloaded") := by
  have h := c6_exec_error_synthesis c6wEnv "q" c6Schema "SELECT 1;" "boom"
    (by decide) (by set_option maxRecDepth 20000 in rfl) rfl rfl
  exact ⟨by decide, h.2.1,
    (h.2.2.1 "overloaded" (by set_option maxRecDepth 20000 in rfl)).1⟩

/-! ## C7 -/

def c7Q : String := "How many rows are in table orders?"

def c7Schema : String := "Table: orders\nColumns: id (integer)"

def c7Sql : String := "SELECT COUNT(*) FROM orders;"

def c7Env : Env :=
  ⟨fun p => if p = sql_generation_prompt c7Schema c7Q then .ok c7Sql
      else .ok "There are 42 rows.",
    .ok (), fun _ => .rows ["count"] [[.int 42]], .ok []⟩

/-- C7: in the stub scenario (question about the size of `orders`, LLM
returning `SELECT COUNT(*) FROM orders;`, database returning the single
row with value 42), the prompt passed to the answer-synthesis LLM call is
the final-answer prompt built over the row text `[\x7b\x27count\x27: 42\x7d]`, and
that prompt contains the literal string `42`. -/
theorem c7_scenario :
    (generate_db_answer c7Env c7Q c7Schema).2 =
      [Event.llmCall (sql_generation_prompt c7Schema c7Q), Event.connOpen, Event.dbExec c7Sql,
        Event.connClose,
        Event.llmCall (final_answer_prompt c7Q c7Sql "[\x7b\x27count\x27: 42\x7d]")]
    ∧ strContains (final_answer_prompt c7Q c7Sql "[\x7b\x27count\x27: 42\x7d]") "42" = true := by
  constructor
  · set_option maxRecDepth 20000 in rfl
  · set_option maxRecDepth 20000 in decide


/-! ## C1 -/

lemma generate_ok_of_no_command (env : Env) (q schema : String)
    (h : ∀ sql, env.execQuery sql ≠ ExecResult.command) :
    ∃ a, (generate_db_answer env q schema).1 = .ok a := by
  cases hres : (generate_db_answer env q schema).1 with
  | ok a => exact ⟨a, rfl⟩
  | error exn =>
    exfalso
    by_cases hm : strContains schema "Schema unavailable" = true
    · simp [generate_db_answer, hm] at hres
    · have hm2 : strContains schema "Schema unavailable" = false := by
        cases hv : strContains schema "Schema unavailable"
        · rfl
        · exact absurd hv hm
      cases h1 : env.llm (sql_generation_prompt schema q) with
      | error e => simp [generate_db_answer, hm2, h1] at hres
      | ok text =>
        cases hc : env.connect with
        | error ce =>
          cases h2 : env.llm (final_answer_prompt q (cleanSql text)
              ("Database Error: " ++ ce)) with
          | ok t => simp [generate_db_answer, execute_body, hm2, h1, hc, h2] at hres
          | error e2 => simp [generate_db_answer, execute_body, hm2, h1, hc, h2] at hres
        | ok u =>
          cases hq : env.execQuery (cleanSql text) with
          | command => exact h _ hq
          | err e =>
            cases h2 : env.llm (final_answer_prompt q (cleanSql text)
                ("Database Error: " ++ e)) with
            | ok t => simp [generate_db_answer, execute_body, hm2, h1, hc, hq, h2] at hres
            | error e2 => simp [generate_db_answer, execute_body, hm2, h1, hc, hq, h2] at hres
          | rows cols data =>
            cases h2 : env.llm (final_answer_prompt q (cleanSql text)
                (pyReprRowList (data.map (fun row => pyDict (cols.zip row))))) with
            | ok t => simp [generate_db_answer, execute_body, hm2, h1, hc, hq, h2] at hres
            | error e2 => simp [generate_db_answer, execute_body, hm2, h1, hc, hq, h2] at hres

lemma runTurn_of_ok (env : Env) (schema : String) (msgs : List ChatMessage) (p : String)
    (h : ∃ a, (generate_db_answer env p schema).1 = .ok a) :
    runTurn env schema msgs p =
      msgs ++ [⟨"user", p⟩, ⟨"assistant", turnAnswer env schema p⟩] := by
  obtain ⟨a, ha⟩ := h
  unfold runTurn turnAnswer
  rw [ha]
  simp

lemma foldl_runTurn (env : Env) (schema : String)
    (h : ∀ q, ∃ a, (generate_db_answer env q schema).1 = .ok a) :
    ∀ (ps : List String) (msgs : List ChatMessage),
      ps.foldl (runTurn env schema) msgs = msgs ++ turnList env schema ps := by
  intro ps
  induction ps with
  | nil => intro msgs; simp [turnList]
  | cons p ps ih =>
    intro msgs
    rw [List.foldl_cons, runTurn_of_ok env schema msgs p (h p), ih, turnList]
    simp

lemma turnList_length (env : Env) (schema : String) (ps : List String) :
    (turnList env schema ps).length = 2 * ps.length := by
  induction ps with
  | nil => simp [turnList]
  | cons p ps ih =>
    simp only [turnList, List.length_cons, ih, List.length_cons]
    omega

/-- C1 amended: provided no turn\x27s generated SQL executes successfully
without a result set (the one path on which the pipeline raises an uncaught
`TypeError`, see the counterexample), the transcript after the given user
prompts is exactly the seed greeting followed, per turn and in order, by
the user message and the assistant reply — hence append-only, never
reordered, with exactly `1 + 2 * N` messages after `N` turns. -/
theorem c1_transcript_shape (env : Env) (prompts : List String)
    (h : ∀ sql, env.execQuery sql ≠ ExecResult.command) :
    sessionTranscript env prompts =
      initialMessages ++ turnList env (get_db_schema env).1 prompts
    ∧ (sessionTranscript env prompts).length = 1 + 2 * prompts.length := by
  have hex : ∀ q, ∃ a, (generate_db_answer env q (get_db_schema env).1).1 = .ok a :=
    fun q => generate_ok_of_no_command env q (get_db_schema env).1 h
  have hfold : sessionTranscript env prompts =
      initialMessages ++ turnList env (get_db_schema env).1 prompts :=
    foldl_runTurn env (get_db_schema env).1 hex prompts initialMessages
  refine ⟨hfold, ?_⟩
  rw [hfold]
  simp only [List.length_append, turnList_length]
  simp [initialMessages]

def c1Env : Env := ⟨fun _ => .ok "INSERT INTO t VALUES (1)", .ok (), fun _ => .command, .ok []⟩

/-- C1 counterexample: when the LLM returns an INSERT statement and the
database executes it successfully with no result set, the pipeline raises
an uncaught `TypeError` after the user message was appended and before the
assistant reply is appended, so the transcript after one user turn has 2
messages, not `1 + 2 * 1`. -/
theorem c1_counterexample :
    (sessionTranscript c1Env ["add a row"]).length ≠
      1 + 2 * (["add a row"] : List String).length := by
  set_option maxRecDepth 20000 in decide

/-- C1 witness: a concrete non-raising session with one turn. -/
theorem c1_witness :
    (∀ sql, stubEnv.execQuery sql ≠ ExecResult.command)
    ∧ sessionTranscript stubEnv ["q1"] =
        initialMessages ++ turnList stubEnv (get_db_schema stubEnv).1 ["q1"]
    ∧ (sessionTranscript stubEnv ["q1"]).length = 1 + 2 * 1 := by
  have h : ∀ sql, stubEnv.execQuery sql ≠ ExecResult.command := by
    intro sql hc
    cases hc
  have h2 := c1_transcript_shape stubEnv ["q1"] h
  exact ⟨h, h2.1, by simpa using h2.2⟩

end App

namespace App

/-! ## C5 machinery: behavior of `replaceFuel` -/

lemma replaceFuel_nil (pat repl : List Char) (fuel : Nat) : replaceFuel pat repl fuel [] = [] := by
  cases fuel <;> rfl

lemma replaceFuel_zero (pat repl : List Char) (l : List Char) : replaceFuel pat repl 0 l = l := by
  cases l <;> rfl

lemma replaceFuel_short (pat repl : List Char) :
    ∀ (l : List Char) (fuel : Nat), l.length < pat.length → replaceFuel pat repl fuel l = l := by
  intro l
  induction l with
  | nil => intro fuel h; exact replaceFuel_nil pat repl fuel
  | cons c rest ih =>
    intro fuel h
    cases fuel with
    | zero => exact replaceFuel_zero pat repl _
    | succ f =>
      have hpre : pat.isPrefixOf (c :: rest) = false := by
        cases hp : pat.isPrefixOf (c :: rest)
        · rfl
        · exfalso
          have hlen := (List.isPrefixOf_iff_prefix.mp hp).length_le
          simp only [List.length_cons] at hlen h
          omega
      simp only [replaceFuel, hpre, Bool.false_eq_true, if_false, List.cons.injEq, true_and]
      exact ih f (by simp only [List.length_cons] at h; omega)

lemma replaceFuel_skip (pat repl : List Char) (c0 : Char) (hpat : pat.head? = some c0) :
    ∀ (body : List Char) (fuel : Nat) (tail : List Char), (∀ c ∈ body, c ≠ c0) →
      replaceFuel pat repl fuel (body ++ tail) =
        body ++ replaceFuel pat repl (fuel - body.length) tail := by
  intro body
  induction body with
  | nil => intro fuel tail h; simp
  | cons c rest ih =>
    intro fuel tail h
    cases fuel with
    | zero =>
      rw [replaceFuel_zero, Nat.zero_sub, replaceFuel_zero]
    | succ f =>
      have hc : c ≠ c0 := h c (by simp)
      have hpre : pat.isPrefixOf (c :: (rest ++ tail)) = false := by
        cases pat with
        | nil => cases hpat
        | cons p ps =>
          have hp : p = c0 := by simpa using hpat
          have hcc : (p == c) = false := by
            rw [beq_eq_false_iff_ne, hp]
            exact Ne.symm hc
          simp [List.isPrefixOf, hcc]
      rw [List.cons_append]
      simp only [replaceFuel, hpre, Bool.false_eq_true, if_false]
      rw [ih f tail (fun x hx => h x (by simp [hx]))]
      simp only [List.length_cons, Nat.succ_sub_succ, List.cons_append]

lemma fence_eat : ∀ fuel, 1 ≤ fuel → replaceFuel fenceL [] fuel fenceL = [] := by
  intro fuel h
  cases fuel with
  | zero => omega
  | succ f =>
    show replaceFuel fenceL [] (f + 1) (bq :: [bq, bq]) = []
    have hpre : fenceL.isPrefixOf (bq :: [bq, bq]) = true := by decide
    simp only [replaceFuel, hpre, if_true]
    rw [show ([bq, bq] : List Char).drop (fenceL.length - 1) = [] from by decide]
    rw [replaceFuel_nil]
    rfl

lemma fenceSql_eat (rest : List Char) (f : Nat) :
    replaceFuel fenceSqlL [] (f + 1) (fenceSqlL ++ rest) = replaceFuel fenceSqlL [] f rest := by
  have hpre : fenceSqlL.isPrefixOf (fenceSqlL ++ rest) = true := isPrefixOf_append_self _ _
  show replaceFuel fenceSqlL [] (f + 1) (bq :: ([bq, bq, 's', 'q', 'l'] ++ rest)) =
    replaceFuel fenceSqlL [] f rest
  rw [show fenceSqlL ++ rest = bq :: ([bq, bq, 's', 'q', 'l'] ++ rest) from rfl] at hpre
  simp only [replaceFuel, hpre, if_true]
  rw [show fenceSqlL.length - 1 = ([bq, bq, 's', 'q', 'l'] : List Char).length from by decide]
  rw [List.drop_left]
  rfl

lemma replaceFuel_no_bq (pat : List Char) (hpat : pat.head? = some bq)
    (s : List Char) (hb : ∀ c ∈ s, c ≠ bq) (fuel : Nat) :
    replaceFuel pat [] fuel s = s := by
  have h := replaceFuel_skip pat [] bq hpat s fuel [] hb
  rw [List.append_nil] at h
  rw [h, replaceFuel_nil, List.append_nil]


/-! ## C5 machinery: behavior of `stripChars` -/

lemma head_dropWhile_false {a : Char} :
    ∀ (l : List Char), (List.dropWhile isPySpace l).head? = some a → isPySpace a = false := by
  intro l
  induction l with
  | nil => intro h; cases h
  | cons c rest ih =>
    intro h
    by_cases hc : isPySpace c = true
    · rw [List.dropWhile_cons_of_pos hc] at h
      exact ih h
    · rw [List.dropWhile_cons_of_neg hc] at h
      have : c = a := by simpa using h
      subst this
      simpa using hc

lemma stripChars_eq_self (l : List Char)
    (h1 : ∀ c, l.head? = some c → isPySpace c = false)
    (h2 : ∀ c, l.getLast? = some c → isPySpace c = false) :
    stripChars l = l := by
  unfold stripChars
  have hd : List.dropWhile isPySpace l = l := by
    cases l with
    | nil => rfl
    | cons c rest =>
      exact List.dropWhile_cons_of_neg (by simp [h1 c rfl])
  rw [hd]
  rw [List.rdropWhile_eq_self_iff]
  intro hl
  have := h2 (l.getLast hl) (List.getLast?_eq_getLast l hl ▸ rfl)
  simp [this]

lemma getLast_append_fence (x : List Char) : (x ++ fenceL).getLast? = some bq := by
  rw [show x ++ fenceL = (x ++ [bq, bq]) ++ [bq] from by simp [fenceL]]
  exact List.getLast?_concat _

lemma mem_stripChars (l : List Char) (c : Char) (h : c ∈ stripChars l) : c ∈ l := by
  unfold stripChars at h
  have h1 : c ∈ List.dropWhile isPySpace l :=
    (List.rdropWhile_prefix isPySpace (List.dropWhile isPySpace l)).sublist.subset h
  exact (List.dropWhile_sublist isPySpace).subset h1

lemma stripChars_idem (l : List Char) : stripChars (stripChars l) = stripChars l := by
  have key : List.dropWhile isPySpace (stripChars l) = stripChars l := by
    cases hr : stripChars l with
    | nil => rfl
    | cons a m =>
      have hpre : stripChars l <+: List.dropWhile isPySpace l :=
        List.rdropWhile_prefix isPySpace (List.dropWhile isPySpace l)
      rw [hr] at hpre
      obtain ⟨t, ht⟩ := hpre
      have hhead : (List.dropWhile isPySpace l).head? = some a := by
        rw [← ht]
        rfl
      have ha : isPySpace a = false := head_dropWhile_false l hhead
      exact List.dropWhile_cons_of_neg (by simp [ha])
  show List.rdropWhile isPySpace (List.dropWhile isPySpace (stripChars l)) = stripChars l
  rw [key]
  show List.rdropWhile isPySpace (List.rdropWhile isPySpace (List.dropWhile isPySpace l)) = _
  rw [List.rdropWhile_idempotent]
  rfl


lemma stripChars_bq_wrapped (l : List Char) (hh : l.head? = some bq)
    (hl : l.getLast? = some bq) : stripChars l = l := by
  apply stripChars_eq_self
  · intro c hc
    rw [hh] at hc
    have : bq = c := Option.some.inj hc
    subst this
    decide
  · intro c hc
    rw [hl] at hc
    have : bq = c := Option.some.inj hc
    subst this
    decide

lemma sqlTag_not_prefix_of (s : List Char) (hs : sqlTag.isPrefixOf s = false) :
    sqlTag.isPrefixOf (s ++ fenceL) = false := by
  cases s with
  | nil => decide
  | cons a s1 =>
    cases s1 with
    | nil =>
      have h1 : (('q' : Char) == bq) = false := by decide
      simp [sqlTag, fenceL, List.isPrefixOf, h1]
    | cons b s2 =>
      cases s2 with
      | nil =>
        have h1 : (('l' : Char) == bq) = false := by decide
        simp [sqlTag, fenceL, List.isPrefixOf, h1]
      | cons d s3 =>
        simp only [sqlTag, List.isPrefixOf, List.cons_append] at hs ⊢
        exact hs

lemma head_bq_not_prefix (p : List Char) (s : List Char) (hc : ∀ c ∈ s, c ≠ bq)
    (hbase : (bq :: p).isPrefixOf fenceL = false) :
    (bq :: p).isPrefixOf (s ++ fenceL) = false := by
  cases s with
  | nil => simpa using hbase
  | cons a s1 =>
    have ha : (bq == a) = false := by
      rw [beq_eq_false_iff_ne]
      exact Ne.symm (hc a (by simp))
    simp [List.isPrefixOf, ha]

lemma form2_no_fenceSql (stmt : List Char) (hb : ∀ c ∈ stmt, c ≠ bq)
    (hs : sqlTag.isPrefixOf stmt = false) :
    ∀ fuel, replaceFuel fenceSqlL [] fuel (fenceL ++ (stmt ++ fenceL)) =
      fenceL ++ (stmt ++ fenceL) := by
  intro fuel
  show replaceFuel fenceSqlL [] fuel (bq :: (bq :: (bq :: (stmt ++ fenceL)))) = _
  cases fuel with
  | zero => exact replaceFuel_zero _ _ _
  | succ f1 =>
    have hp1 : fenceSqlL.isPrefixOf (bq :: (bq :: (bq :: (stmt ++ fenceL)))) = false := by
      have h := sqlTag_not_prefix_of stmt hs
      simp only [sqlTag, List.isPrefixOf] at h
      simp only [fenceSqlL, List.isPrefixOf, beq_self_eq_true, Bool.true_and]
      exact h
    simp only [replaceFuel, hp1, Bool.false_eq_true, if_false]
    congr 1
    cases f1 with
    | zero => exact replaceFuel_zero _ _ _
    | succ f2 =>
      have hp2 : fenceSqlL.isPrefixOf (bq :: (bq :: (stmt ++ fenceL))) = false := by
        have h := head_bq_not_prefix ['s', 'q', 'l'] stmt hb (by decide)
        simp only [List.isPrefixOf] at h
        simp only [fenceSqlL, List.isPrefixOf, beq_self_eq_true, Bool.true_and]
        exact h
      simp only [replaceFuel, hp2, Bool.false_eq_true, if_false]
      congr 1
      cases f2 with
      | zero => exact replaceFuel_zero _ _ _
      | succ f3 =>
        have hp3 : fenceSqlL.isPrefixOf (bq :: (stmt ++ fenceL)) = false := by
          have h := head_bq_not_prefix [bq, 's', 'q', 'l'] stmt hb (by decide)
          simp only [List.isPrefixOf] at h
          simp only [fenceSqlL, List.isPrefixOf, beq_self_eq_true, Bool.true_and]
          exact h
        simp only [replaceFuel, hp3, Bool.false_eq_true, if_false]
        congr 1
        rw [replaceFuel_skip fenceSqlL [] bq rfl stmt f3 fenceL hb]
        rw [replaceFuel_short fenceSqlL [] fenceL _ (by decide)]
        simp

lemma form2_fence_result (stmt : List Char) (hb : ∀ c ∈ stmt, c ≠ bq) :
    pyReplace ⟨fenceL ++ (stmt ++ fenceL)⟩ fenceS "" = ⟨stmt⟩ := by
  unfold pyReplace
  congr 1
  have hlen : (fenceL ++ (stmt ++ fenceL)).length = stmt.length + 5 + 1 := by
    simp [fenceL]
  rw [hlen]
  have hpre : fenceL.isPrefixOf (bq :: ([bq, bq] ++ (stmt ++ fenceL))) = true := by
    rw [List.isPrefixOf_iff_prefix]
    exact ⟨stmt ++ fenceL, rfl⟩
  show replaceFuel fenceL [] (stmt.length + 5 + 1) (bq :: ([bq, bq] ++ (stmt ++ fenceL))) = stmt
  simp only [replaceFuel, hpre, if_true]
  rw [show fenceL.length - 1 = ([bq, bq] : List Char).length from by decide]
  rw [List.drop_left, List.nil_append]
  rw [replaceFuel_skip fenceL [] bq rfl stmt _ fenceL hb]
  rw [show stmt.length + 5 - stmt.length = 5 from by omega]
  rw [fence_eat 5 (by omega)]
  exact List.append_nil _


/-! ## C5 -/

/-- C5: line 95 strips markdown code-fence wrapping and surrounding
whitespace.  For a fenced statement containing no backtick: the
`(fence)sql`-wrapped form and the plain-fence-wrapped form (when the
statement does not itself start with the characters `sql`, as is the case
for the space- or newline-separated forms of the claim) both yield the
statement trimmed; a response with no fence characters at all is returned
trimmed and otherwise unchanged. -/
theorem c5_code_fence_stripping (stmt : String) (hb : ∀ c ∈ stmt.data, c ≠ bq) :
    cleanSql (fenceSqlS ++ stmt ++ fenceS) = pyStrip stmt
    ∧ (sqlTag.isPrefixOf stmt.data = false →
        cleanSql (fenceS ++ stmt ++ fenceS) = pyStrip stmt)
    ∧ cleanSql stmt = pyStrip stmt := by
  refine ⟨?_, ?_, ?_⟩
  · unfold cleanSql
    have hdata : (fenceSqlS ++ stmt ++ fenceS).data = fenceSqlL ++ (stmt.data ++ fenceL) := by
      simp [String.data_append, fenceSqlS, fenceS]
    have hstrip : pyStrip (fenceSqlS ++ stmt ++ fenceS) = ⟨fenceSqlL ++ (stmt.data ++ fenceL)⟩ := by
      unfold pyStrip
      rw [hdata]
      rw [stripChars_bq_wrapped (fenceSqlL ++ (stmt.data ++ fenceL)) (by rfl) (by
        rw [show fenceSqlL ++ (stmt.data ++ fenceL) = (fenceSqlL ++ stmt.data) ++ fenceL from by
          simp]
        exact getLast_append_fence _)]
    rw [hstrip]
    have hr1 : pyReplace ⟨fenceSqlL ++ (stmt.data ++ fenceL)⟩ fenceSqlS "" =
        ⟨stmt.data ++ fenceL⟩ := by
      unfold pyReplace
      congr 1
      show replaceFuel fenceSqlL [] (fenceSqlL ++ (stmt.data ++ fenceL)).length
        (fenceSqlL ++ (stmt.data ++ fenceL)) = stmt.data ++ fenceL
      have hlen : (fenceSqlL ++ (stmt.data ++ fenceL)).length = stmt.data.length + 8 + 1 := by
        simp [fenceSqlL, fenceL]
      rw [hlen]
      rw [fenceSql_eat]
      rw [replaceFuel_skip fenceSqlL [] bq rfl stmt.data _ fenceL hb]
      rw [replaceFuel_short fenceSqlL [] fenceL _ (by decide)]
    rw [hr1]
    have hr2 : pyReplace ⟨stmt.data ++ fenceL⟩ fenceS "" = ⟨stmt.data⟩ := by
      unfold pyReplace
      congr 1
      show replaceFuel fenceL [] (stmt.data ++ fenceL).length (stmt.data ++ fenceL) = stmt.data
      have hlen : (stmt.data ++ fenceL).length = stmt.data.length + 3 := by simp [fenceL]
      rw [hlen]
      rw [replaceFuel_skip fenceL [] bq rfl stmt.data _ fenceL hb]
      rw [show stmt.data.length + 3 - stmt.data.length = 3 from by omega]
      rw [fence_eat 3 (by omega)]
      exact List.append_nil _
    rw [hr2]
  · intro hs
    unfold cleanSql
    have hdata : (fenceS ++ stmt ++ fenceS).data = fenceL ++ (stmt.data ++ fenceL) := by
      simp [String.data_append, fenceS]
    have hstrip : pyStrip (fenceS ++ stmt ++ fenceS) = ⟨fenceL ++ (stmt.data ++ fenceL)⟩ := by
      unfold pyStrip
      rw [hdata]
      rw [stripChars_bq_wrapped (fenceL ++ (stmt.data ++ fenceL)) (by rfl) (by
        rw [show fenceL ++ (stmt.data ++ fenceL) = (fenceL ++ stmt.data) ++ fenceL from by simp]
        exact getLast_append_fence _)]
    rw [hstrip]
    have hr1 : pyReplace ⟨fenceL ++ (stmt.data ++ fenceL)⟩ fenceSqlS "" =
        ⟨fenceL ++ (stmt.data ++ fenceL)⟩ := by
      unfold pyReplace
      congr 1
      show replaceFuel fenceSqlL [] (fenceL ++ (stmt.data ++ fenceL)).length
        (fenceL ++ (stmt.data ++ fenceL)) = fenceL ++ (stmt.data ++ fenceL)
      exact form2_no_fenceSql stmt.data hb hs _
    rw [hr1]
    rw [form2_fence_result stmt.data hb]
  · unfold cleanSql
    have hb2 : ∀ c ∈ stripChars stmt.data, c ≠ bq := fun c hc => hb c (mem_stripChars _ _ hc)
    have hr1 : pyReplace (pyStrip stmt) fenceSqlS "" = pyStrip stmt := by
      unfold pyReplace pyStrip
      congr 1
      exact replaceFuel_no_bq fenceSqlL rfl _ hb2 _
    rw [hr1]
    have hr2 : pyReplace (pyStrip stmt) fenceS "" = pyStrip stmt := by
      unfold pyReplace pyStrip
      congr 1
      exact replaceFuel_no_bq fenceL rfl _ hb2 _
    rw [hr2]
    unfold pyStrip
    rw [show (⟨stripChars stmt.data⟩ : String).data = stripChars stmt.data from rfl]
    rw [stripChars_idem]

/-- C5 witness: the theorem at three concrete responses. -/
theorem c5_witness :
    cleanSql (fenceSqlS ++ "\nSELECT 1;\n" ++ fenceS) = "SELECT 1;"
    ∧ cleanSql (fenceS ++ " SELECT 1; " ++ fenceS) = "SELECT 1;"
    ∧ cleanSql "  SELECT 1;  " = "SELECT 1;" := by
  have h1 := c5_code_fence_stripping "\nSELECT 1;\n" (by decide)
  have h2 := c5_code_fence_stripping " SELECT 1; " (by decide)
  have h3 := c5_code_fence_stripping "  SELECT 1;  " (by decide)
  exact ⟨h1.1.trans (by decide), (h2.2.1 (by decide)).trans (by decide),
    h3.2.2.trans (by decide)⟩


/-! ## C8 -/

/-- All `col (type)` entries of table `t`, in catalog order. -/
def entriesFor (t : String) (rows : List (String × String × String)) : List String :=
  (rows.filter (fun r => r.1 == t)).map schemaEntry

lemma entriesFor_cons_self (r : String × String × String)
    (rest : List (String × String × String)) (t : String) (h : r.1 = t) :
    entriesFor t (r :: rest) = schemaEntry r :: entriesFor t rest := by
  simp [entriesFor, List.filter_cons, h]

lemma entriesFor_cons_other (r : String × String × String)
    (rest : List (String × String × String)) (t : String) (h : ¬ r.1 = t) :
    entriesFor t (r :: rest) = entriesFor t rest := by
  simp [entriesFor, List.filter_cons, h]

lemma hasKey_map_step (acc : List (String × List String)) (r : String × String × String)
    (t : String) :
    hasKey (acc.map (fun p => if p.1 == r.1 then (p.1, p.2 ++ [schemaEntry r]) else p)) t =
      hasKey acc t := by
  induction acc with
  | nil => rfl
  | cons q acc ih =>
    simp only [hasKey, List.map_cons, List.any_cons] at ih ⊢
    rw [ih]
    by_cases h : q.1 = r.1 <;> simp [h]

lemma keys_map_step (acc : List (String × List String)) (r : String × String × String) :
    (acc.map (fun p => if p.1 == r.1 then (p.1, p.2 ++ [schemaEntry r]) else p)).map Prod.fst =
      acc.map Prod.fst := by
  rw [List.map_map]
  apply List.map_congr_left
  intro p _
  by_cases h : p.1 = r.1 <;> simp [h]

lemma beq_false_of_ne {a b : String} (h : ¬ a = b) : (a == b) = false :=
  beq_eq_false_iff_ne.mpr h

lemma foldl_dictStep (rows : List (String × String × String)) :
    ∀ acc : List (String × List String), (acc.map Prod.fst).Nodup →
      rows.foldl dictStep acc =
        acc.map (fun p => (p.1, p.2 ++ entriesFor p.1 rows))
          ++ specGroupTables (rows.filter (fun r => !(hasKey acc r.1))) := by
  induction rows with
  | nil =>
    intro acc hnd
    simp [entriesFor, specGroupTables]
  | cons r rest ih =>
    intro acc hnd
    rw [List.foldl_cons]
    by_cases hk : hasKey acc r.1 = true
    · -- the table is already a key: the entry is appended to it in place
      have hstep : dictStep acc r =
          acc.map (fun p => if p.1 == r.1 then (p.1, p.2 ++ [schemaEntry r]) else p) := by
        simp [dictStep, hk]
      rw [hstep, ih _ (by rw [keys_map_step]; exact hnd)]
      congr 1
      · rw [List.map_map]
        apply List.map_congr_left
        intro p _
        by_cases hpr : p.1 = r.1
        · rw [entriesFor_cons_self r rest p.1 hpr.symm]
          simp [hpr]
        · rw [entriesFor_cons_other r rest p.1 (fun hx => hpr hx.symm)]
          simp [hpr]
      · rw [List.filter_cons]
        simp only [hk, Bool.not_true, Bool.false_eq_true, if_false]
        congr 1
        apply List.filter_congr
        intro x _
        rw [hasKey_map_step]
    · -- a fresh table: a new singleton group is appended at the end
      have hk2 : hasKey acc r.1 = false := by
        cases hx : hasKey acc r.1
        · rfl
        · exact absurd hx hk
      have hstep : dictStep acc r = acc ++ [(r.1, [schemaEntry r])] := by
        simp [dictStep, hk2]
      have hnotin : r.1 ∉ acc.map Prod.fst := by
        intro hmem
        obtain ⟨p, hp, hfst⟩ := List.mem_map.mp hmem
        have hb : (p.1 == r.1) = true := by rw [hfst]; exact beq_self_eq_true _
        have hany : hasKey acc r.1 = true := by
          unfold hasKey
          rw [List.any_eq_true]
          exact ⟨p, hp, hb⟩
        rw [hany] at hk2
        cases hk2
      have hnd2 : ((acc ++ [(r.1, [schemaEntry r])]).map Prod.fst).Nodup := by
        rw [List.map_append]
        simp only [List.map_cons, List.map_nil]
        rw [List.nodup_append]
        refine ⟨hnd, List.nodup_singleton _, ?_⟩
        intro a ha hb
        simp only [List.mem_singleton] at hb
        subst hb
        exact hnotin ha
      rw [hstep, ih _ hnd2]
      rw [List.filter_cons]
      simp only [hk2, Bool.not_false, if_true]
      rw [specGroupTables]
      rw [List.map_append]
      simp only [List.map_cons, List.map_nil]
      rw [List.append_assoc]
      congr 1
      · -- old groups are unaffected by the fresh table
        apply List.map_congr_left
        intro p hp
        have hne : ¬ r.1 = p.1 := by
          intro hcontra
          exact hnotin (hcontra ▸ List.mem_map_of_mem Prod.fst hp)
        rw [entriesFor_cons_other r rest p.1 hne]
      · rw [List.singleton_append]
        congr 1
        · -- the new group collects exactly the later entries of table r.1
          rw [List.singleton_append]
          congr 1
          unfold entriesFor
          rw [List.filter_filter]
          congr 1
          refine congrArg (List.map schemaEntry) ?_
          apply List.filter_congr
          intro x _
          by_cases hx : x.1 = r.1
          · have hfalse : hasKey acc x.1 = false := by rw [hx]; exact hk2
            simp [hx, hfalse, hk2]
          · have hx2 : (x.1 == r.1) = false := beq_false_of_ne hx
            simp [hx2]
        · -- the remaining groups ignore both the old keys and table r.1
          congr 1
          rw [List.filter_filter]
          apply List.filter_congr
          intro x _
          unfold hasKey
          rw [List.any_append]
          simp only [List.any_cons, List.any_nil, Bool.or_false, Bool.not_or]
          by_cases hx : x.1 = r.1
          · simp [hx, Bool.and_comm]
          · have hx2 : (x.1 == r.1) = false := beq_false_of_ne hx
            have hx3 : (r.1 == x.1) = false := beq_false_of_ne (fun hh => hx hh.symm)
            simp [hx2, hx3, Bool.and_comm]

/-- C8: on the success path, for every catalog result the schema text is
the render — one `Table: <name>` block per table, columns as
`<col> (<type>)` joined by commas, blocks joined by blank lines — of the
spec-side grouping `specGroupTables`: tables in the order the ordered
catalog query returns them, each holding its columns in catalog order.
The dict-building loop of the code equals that grouping for all inputs. -/
theorem c8_schema_rendering (env : Env) (rows : List (String × String × String))
    (hc : env.connect = .ok ()) (hcat : env.catalog = .ok rows) :
    (get_db_schema env).1 = renderSchema (specGroupTables rows)
    ∧ buildSchemaDict rows = specGroupTables rows := by
  have hbuild : buildSchemaDict rows = specGroupTables rows := by
    unfold buildSchemaDict
    rw [foldl_dictStep rows [] (by simp)]
    simp [hasKey]
  constructor
  · simp [get_db_schema, hc, hcat, hbuild]
  · exact hbuild

def c8Env : Env :=
  ⟨fun _ => .ok "", .ok (), fun _ => .rows [] [],
    .ok [("orders", "id", "integer"), ("orders", "total", "numeric"), ("users", "name", "text")]⟩

/-- C8 witness: a two-table catalog renders as two blocks with columns in
catalog order. -/
theorem c8_witness :
    (get_db_schema c8Env).1 =
      "Table: orders\nColumns: id (integer), total (numeric)\n\nTable: users\nColumns: name (text)" := by
  have h := c8_schema_rendering c8Env
    [("orders", "id", "integer"), ("orders", "total", "numeric"), ("users", "name", "text")]
    rfl rfl
  refine h.1.trans ?_
  have hspec : specGroupTables
      [("orders", "id", "integer"), ("orders", "total", "numeric"), ("users", "name", "text")] =
      [("orders", ["id (integer)", "total (numeric)"]), ("users", ["name (text)"])] := by
    simp [specGroupTables, schemaEntry]
  rw [hspec]
  decide

end App
